import Mathlib

/-!
Verification of the Balancer Vault client (src/unnamed/part_001).

The client is a pure request/response layer: it builds ABI argument tuples
for outbound contract calls, validates the shapes of simulated responses,
and computes byte offsets for zap balance insertion.  The embedding below
models each operation as a pure function: the network call itself is
replaced by an explicit `result` argument (the decoded response), and the
outbound argument tuple is exposed as a `List WireValue` so that theorems
can talk about what is sent.  The external ABI hex encoder and the
BigNumber parser are opaque collaborators; amounts are arbitrary-precision
integers (`Int`).
-/

/-- A value in an ABI argument tuple, as handed to the external ABI encoder:
a plain string (addresses, pool ids, hex blobs, decimal strings), a bool,
a number, or a nested tuple/array. -/
inductive WireValue
  | s : String → WireValue
  | b : Bool → WireValue
  | n : Nat → WireValue
  | arr : List WireValue → WireValue

/-- Modelled from the spec: `ZERO_ADDRESS` (from helpers/addresses, not under
src/) is the zero address used as dry-run sender/recipient. -/
def ZERO_ADDRESS : String := "0x0000000000000000000000000000000000000000"

/-- Modelled from the spec: `bigNumberToUint256String` (from
helpers/big-number, not under src/) renders a decimal as a fixed-width
unsigned 256-bit integer string for wire encoding. -/
def bigNumberToUint256String (x : Int) : String :=
  toString (x.emod (2 ^ 256))

/-- Modelled from the spec: `bigNumberToInt256String` (from
helpers/big-number, not under src/) renders a decimal as a signed
fixed-width 256-bit integer string; negative values stay negative. -/
def bigNumberToInt256String (x : Int) : String :=
  toString ((x + 2 ^ 255).emod (2 ^ 256) - 2 ^ 255)

/-- Modelled from the spec: `getInsertIndex` (from transact/helpers/zap, not
under src/) maps a 32-byte word position of the encoded call to its byte
offset: the function selector occupies the first 4 bytes and word-aligned
offsets start after it. -/
def getInsertIndex (position : Nat) : Nat := 4 + position * 32

namespace WeightedPoolExitKind

/-- Modelled from the spec: exit-kind discriminant 0, exact BPT in for all
tokens out (WeightedPoolExitKind from the weighted pool types, not under
src/). -/
def EXACT_BPT_IN_FOR_TOKENS_OUT : Nat := 0

/-- Modelled from the spec: exit-kind discriminant 1, exact BPT in for one
token out. -/
def EXACT_BPT_IN_FOR_ONE_TOKEN_OUT : Nat := 1

/-- Modelled from the spec: exit-kind discriminant 2, BPT in for exact
tokens out. -/
def BPT_IN_FOR_EXACT_TOKENS_OUT : Nat := 2

end WeightedPoolExitKind

/-- JavaScript `Array.prototype.map` with the element index as second
callback argument, starting from `k`. -/
def mapWithIndex (f : Nat → α → β) : Nat → List α → List β
  | _, [] => []
  | k, a :: as => f k a :: mapWithIndex f (k + 1) as

/-- VaultConfig: the two contract addresses, supplied at construction. -/
structure VaultConfig where
  vaultAddress : String
  queryAddress : String

/-- Raw `getPoolTokens` response; `none` models a missing or non-array
field. -/
structure PoolTokensResult where
  tokens : Option (List String)
  balances : Option (List Int)

/-- One entry of the parsed `getPoolTokens` response. -/
structure PoolTokenBalance where
  token : String
  balance : Int

/-- The opaque `userData` byte blob of an exit request, seen as its leading
256-bit word (the exit-kind discriminant, what
`abiCoder.decodeParameter` reads) plus the remaining words. -/
structure UserData where
  head : Nat
  rest : List Nat

/-- Inner join request tuple: assets, maxAmountsIn, userData,
fromInternalBalance. -/
structure JoinPoolRequest where
  assets : List String
  maxAmountsIn : List Int
  userData : String
  fromInternalBalance : Bool

/-- Arguments of a `joinPool`/`queryJoin` call. -/
structure JoinPoolArgs where
  poolId : String
  sender : String
  recipient : String
  request : JoinPoolRequest

/-- Caller-facing `queryJoinPool` request: it may carry sender/recipient
values, which the operation overrides with the zero address. -/
structure QueryJoinPoolRequest where
  poolId : String
  sender : String
  recipient : String
  request : JoinPoolRequest

/-- Raw `queryJoin` response; `amountsIn = none` models a missing or
non-array field. -/
structure JoinPoolResult where
  bptOut : Int
  amountsIn : Option (List Int)

/-- Parsed `queryJoinPool` response.  An `unusedInput` entry is `none` when
the corresponding `usedInput` index is out of range (the JavaScript
subtraction would produce NaN there). -/
structure QueryJoinPoolResponse where
  liquidity : Int
  usedInput : List Int
  unusedInput : List (Option Int)

/-- Inner exit request tuple. -/
structure ExitPoolRequest where
  assets : List String
  minAmountsOut : List Int
  userData : UserData
  toInternalBalance : Bool

/-- Arguments of an `exitPool`/`queryExit` call. -/
structure ExitPoolArgs where
  poolId : String
  sender : String
  recipient : String
  request : ExitPoolRequest

/-- Caller-facing `queryExitPool` request. -/
structure QueryExitPoolRequest where
  poolId : String
  sender : String
  recipient : String
  request : ExitPoolRequest

/-- Raw `queryExit` response. -/
structure ExitPoolResult where
  bptIn : Int
  amountsOut : Option (List Int)

/-- Parsed `queryExitPool` response. -/
structure QueryExitPoolResponse where
  liquidity : Int
  outputs : List Int

/-- Funds routing tuple for swaps. -/
structure FundManagement where
  sender : String
  fromInternalBalance : Bool
  recipient : String
  toInternalBalance : Bool

/-- Single-swap descriptor. -/
structure SingleSwap where
  poolId : String
  kind : Nat
  assetIn : String
  assetOut : String
  amount : Int
  userData : String

/-- Arguments of a `swap` call. -/
structure SwapArgs where
  singleSwap : SingleSwap
  funds : FundManagement
  limit : Int
  deadline : String

/-- One hop of a batch swap. -/
structure BatchSwapStep where
  poolId : String
  assetInIndex : Nat
  assetOutIndex : Nat
  amount : Int
  userData : String

/-- Arguments of a `batchSwap` call. -/
structure BatchSwapArgs where
  kind : Nat
  swaps : List BatchSwapStep
  assets : List String
  funds : FundManagement
  limits : List Int
  deadline : String

/-- Caller-facing `queryBatchSwap` request (funds are forced to the query
funds by the operation). -/
structure QueryBatchSwapRequest where
  kind : Nat
  swaps : List BatchSwapStep
  assets : List String

/-- A balance-insertion marker: token address paired with a byte offset
into the encoded call data. -/
structure StepToken where
  token : String
  index : Nat

/-- One zap step: target contract, native value, encoded call data (here
the argument tuple handed to the ABI encoder) and insertion markers. -/
structure ZapStep where
  target : String
  value : String
  data : List WireValue
  tokens : List StepToken

/-- Request for `getJoinPoolZap`. -/
structure JoinPoolZapRequest where
  join : JoinPoolArgs
  insertBalance : Bool

/-- Request for `getExitPoolZap`. -/
structure ExitPoolZapRequest where
  exit : ExitPoolArgs
  poolAddress : String
  insertBalance : Bool

/-- Request for `getSwapZap`. -/
structure SwapZapRequest where
  swap : SwapArgs
  insertBalance : Bool

/-- One token entry of a pool configuration. -/
structure PoolConfigToken where
  address : String

/-- Pool configuration used by `checkToken`. -/
structure PoolConfig where
  poolId : String
  tokens : List PoolConfigToken

/-- The fixed dry-run funds used by `queryBatchSwap`. -/
def queryFunds : FundManagement :=
  { sender := ZERO_ADDRESS
    fromInternalBalance := false
    recipient := ZERO_ADDRESS
    toInternalBalance := false }

/-- `Vault.getPoolTokens`, parsing part: validates the raw response and
produces one balance per token.  `getAddress` is the external canonical
checksum normalizer (viem), passed as a parameter since it is an opaque
collaborator. -/
def getPoolTokens (getAddress : String → String) (result : Option PoolTokensResult) :
    Except String (List PoolTokenBalance) :=
  match result with
  | none => Except.error "Invalid result"
  | some r =>
    match r.tokens, r.balances with
    | some tokens, some balances =>
      if tokens.length ≠ balances.length then Except.error "Invalid result"
      else Except.ok (mapWithIndex
        (fun index token => { token := getAddress token, balance := balances.getD index 0 })
        0 tokens)
    | _, _ => Except.error "Invalid result"

/-- The `JoinPoolArgs` built by `queryJoinPool`: the caller request with
sender and recipient overridden by the zero address. -/
def joinPoolCallArgs (request : QueryJoinPoolRequest) : JoinPoolArgs :=
  { poolId := request.poolId
    sender := ZERO_ADDRESS
    recipient := ZERO_ADDRESS
    request := request.request }

/-- The argument tuple `queryJoinPool` hands to the query contract method
`queryJoin`. -/
def queryJoinCall (request : QueryJoinPoolRequest) : List WireValue :=
  let args := joinPoolCallArgs request
  [WireValue.s args.poolId, WireValue.s args.sender, WireValue.s args.recipient,
    WireValue.arr
      [WireValue.arr (args.request.assets.map WireValue.s),
       WireValue.arr (args.request.maxAmountsIn.map
         fun x => WireValue.s (bigNumberToUint256String x)),
       WireValue.s args.request.userData,
       WireValue.b args.request.fromInternalBalance]]

/-- `Vault.queryJoinPool`, parsing part: validates the raw `queryJoin`
response against the request and computes used/unused input amounts. -/
def queryJoinPool (request : QueryJoinPoolRequest) (result : Option JoinPoolResult) :
    Except String QueryJoinPoolResponse :=
  match result with
  | none => Except.error "Invalid result"
  | some r =>
    match r.amountsIn with
    | none => Except.error "Invalid result"
    | some amountsIn =>
      if amountsIn.length ≠ request.request.assets.length then Except.error "Invalid result"
      else
        let usedInput := amountsIn
        Except.ok
          { liquidity := r.bptOut
            usedInput := usedInput
            unusedInput := mapWithIndex
              (fun index amount => (usedInput[index]?).map fun used => amount - used)
              0 request.request.maxAmountsIn }

/-- The `ExitPoolArgs` built by `queryExitPool`: the caller request with
sender and recipient overridden by the zero address. -/
def exitPoolCallArgs (request : QueryExitPoolRequest) : ExitPoolArgs :=
  { poolId := request.poolId
    sender := ZERO_ADDRESS
    recipient := ZERO_ADDRESS
    request := request.request }

/-- Renders the opaque userData blob for the external encoder. -/
def userDataToWire (u : UserData) : WireValue :=
  WireValue.arr (WireValue.n u.head :: u.rest.map WireValue.n)

/-- The argument tuple `queryExitPool` hands to the query contract method
`queryExit`. -/
def queryExitCall (request : QueryExitPoolRequest) : List WireValue :=
  let args := exitPoolCallArgs request
  [WireValue.s args.poolId, WireValue.s args.sender, WireValue.s args.recipient,
    WireValue.arr
      [WireValue.arr (args.request.assets.map WireValue.s),
       WireValue.arr (args.request.minAmountsOut.map
         fun x => WireValue.s (bigNumberToUint256String x)),
       userDataToWire args.request.userData,
       WireValue.b args.request.toInternalBalance]]

/-- `Vault.queryExitPool`, parsing part. -/
def queryExitPool (request : QueryExitPoolRequest) (result : Option ExitPoolResult) :
    Except String QueryExitPoolResponse :=
  match result with
  | none => Except.error "Invalid result"
  | some r =>
    match r.amountsOut with
    | none => Except.error "Invalid result"
    | some amountsOut =>
      if amountsOut.length ≠ request.request.assets.length then Except.error "Invalid result"
      else Except.ok { liquidity := r.bptIn, outputs := amountsOut }

/-- `Vault.queryBatchSwap`, parsing part: `result = none` models a missing
or non-array response. -/
def queryBatchSwap (request : QueryBatchSwapRequest) (result : Option (List Int)) :
    Except String (List Int) :=
  match result with
  | none => Except.error "Invalid result"
  | some deltas =>
    if deltas.length ≠ request.assets.length then Except.error "Invalid result"
    else Except.ok deltas

/-- `Vault.encodeJoinPool`: the ordered argument tuple handed to the ABI
encoder for `joinPool` (the ABI lookup and hex rendering are the opaque
external encoder). -/
def encodeJoinPool (args : JoinPoolArgs) : List WireValue :=
  [WireValue.s args.poolId, WireValue.s args.sender, WireValue.s args.recipient,
    WireValue.arr
      [WireValue.arr (args.request.assets.map WireValue.s),
       WireValue.arr (args.request.maxAmountsIn.map
         fun x => WireValue.s (bigNumberToUint256String x)),
       WireValue.s args.request.userData,
       WireValue.b args.request.fromInternalBalance]]

/-- `Vault.encodeExitPool`: the ordered argument tuple for `exitPool`. -/
def encodeExitPool (args : ExitPoolArgs) : List WireValue :=
  [WireValue.s args.poolId, WireValue.s args.sender, WireValue.s args.recipient,
    WireValue.arr
      [WireValue.arr (args.request.assets.map WireValue.s),
       WireValue.arr (args.request.minAmountsOut.map
         fun x => WireValue.s (bigNumberToUint256String x)),
       userDataToWire args.request.userData,
       WireValue.b args.request.toInternalBalance]]

/-- `Vault.encodeSwap`: the ordered argument tuple for `swap`.  Note the
single-swap amount and the limit are both rendered with the unsigned
converter. -/
def encodeSwap (args : SwapArgs) : List WireValue :=
  [WireValue.arr
     [WireValue.s args.singleSwap.poolId,
      WireValue.n args.singleSwap.kind,
      WireValue.s args.singleSwap.assetIn,
      WireValue.s args.singleSwap.assetOut,
      WireValue.s (bigNumberToUint256String args.singleSwap.amount),
      WireValue.s args.singleSwap.userData],
   WireValue.arr
     [WireValue.s args.funds.sender,
      WireValue.b args.funds.fromInternalBalance,
      WireValue.s args.funds.recipient,
      WireValue.b args.funds.toInternalBalance],
   WireValue.s (bigNumberToUint256String args.limit),
   WireValue.s args.deadline]

/-- `Vault.encodeBatchSwap`: the ordered argument tuple for `batchSwap`.
Hop amounts use the unsigned converter, limits the signed one. -/
def encodeBatchSwap (args : BatchSwapArgs) : List WireValue :=
  [WireValue.n args.kind,
   WireValue.arr (args.swaps.map fun swap => WireValue.arr
     [WireValue.s swap.poolId,
      WireValue.n swap.assetInIndex,
      WireValue.n swap.assetOutIndex,
      WireValue.s (bigNumberToUint256String swap.amount),
      WireValue.s swap.userData]),
   WireValue.arr (args.assets.map WireValue.s),
   WireValue.arr
     [WireValue.s args.funds.sender,
      WireValue.b args.funds.fromInternalBalance,
      WireValue.s args.funds.recipient,
      WireValue.b args.funds.toInternalBalance],
   WireValue.arr (args.limits.map fun x => WireValue.s (bigNumberToInt256String x)),
   WireValue.s args.deadline]

/-- `Vault.getJoinPoolZap`: encodes a join and, when balance insertion is
requested, marks the byte offset of every `maxAmountsIn` element. -/
def getJoinPoolZap (config : VaultConfig) (request : JoinPoolZapRequest) : ZapStep :=
  let maxAmountsInStartWord := 9 + request.join.request.assets.length + 1
  { target := config.vaultAddress
    value := "0"
    data := encodeJoinPool request.join
    tokens :=
      if request.insertBalance then
        mapWithIndex
          (fun i address =>
            { token := address, index := getInsertIndex (maxAmountsInStartWord + i) })
          0 request.join.request.assets
      else [] }

/-- `Vault.getExitPoolZapTokens`: the insertion markers of an exit zap,
selected by the exit-kind discriminant in the leading word of userData. -/
def getExitPoolZapTokens (request : ExitPoolZapRequest) : Except String (List StepToken) :=
  if request.insertBalance then
    let userDataWordStart :=
      9 + request.exit.request.assets.length + 1 +
        request.exit.request.minAmountsOut.length + 1
    let exitKind := request.exit.request.userData.head
    if exitKind = WeightedPoolExitKind.EXACT_BPT_IN_FOR_TOKENS_OUT then
      Except.ok
        [{ token := request.poolAddress, index := getInsertIndex (userDataWordStart + 1) }]
    else if exitKind = WeightedPoolExitKind.EXACT_BPT_IN_FOR_ONE_TOKEN_OUT then
      Except.ok
        [{ token := request.poolAddress, index := getInsertIndex (userDataWordStart + 1) }]
    else if exitKind = WeightedPoolExitKind.BPT_IN_FOR_EXACT_TOKENS_OUT then
      Except.ok
        [{ token := request.poolAddress, index := getInsertIndex (userDataWordStart + 2) }]
    else
      Except.error ("Unsupported exit kind: " ++ toString exitKind)
  else Except.ok []

/-- `Vault.getExitPoolZap`: encodes an exit and attaches the insertion
markers; a thrown unsupported-exit-kind error aborts the whole step. -/
def getExitPoolZap (config : VaultConfig) (request : ExitPoolZapRequest) :
    Except String ZapStep :=
  (getExitPoolZapTokens request).map fun tokens =>
    { target := config.vaultAddress
      value := "0"
      data := encodeExitPool request.exit
      tokens := tokens }

/-- `Vault.getSwapZap`: encodes a single swap; the insertion offset is the
fixed word 7 + 4 (swap struct offset word plus 4 head words). -/
def getSwapZap (config : VaultConfig) (request : SwapZapRequest) : ZapStep :=
  let amountInIndex := getInsertIndex (7 + 4)
  { target := config.vaultAddress
    value := "0"
    data := encodeSwap request.swap
    tokens :=
      if request.insertBalance then
        [{ token := request.swap.singleSwap.assetIn, index := amountInIndex }]
      else [] }

/-- `Vault.checkToken`: precondition helper, fails when the token address
is not among the pool tokens. -/
def checkToken (pool : PoolConfig) (token : String) (label : String) :
    Except String Unit :=
  match pool.tokens.findIdx? (fun t => t.address == token) with
  | none => Except.error (label ++ " must be a pool token")
  | some _ => Except.ok ()

theorem mapWithIndex_length (f : Nat → α → β) (k : Nat) (l : List α) :
    (mapWithIndex f k l).length = l.length := by
  induction l generalizing k with
  | nil => rfl
  | cons a as ih => simp [mapWithIndex, ih]

theorem mapWithIndex_getElem? (f : Nat → α → β) (k : Nat) (l : List α) (i : Nat) :
    (mapWithIndex f k l)[i]? = (l[i]?).map (f (k + i)) := by
  induction l generalizing k i with
  | nil => simp [mapWithIndex]
  | cons a as ih =>
    cases i with
    | zero => simp [mapWithIndex]
    | succ j =>
      simp only [mapWithIndex, List.getElem?_cons_succ, ih]
      have h : k + 1 + j = k + (j + 1) := by omega
      rw [h]

/-- C7: for every queryJoinPool and queryExitPool call, the sender and
recipient sent to the query contract are both the zero address, regardless
of any sender or recipient values present in the caller request. -/
theorem query_calls_force_zero_sender_recipient (reqJ : QueryJoinPoolRequest)
    (reqE : QueryExitPoolRequest) :
    (joinPoolCallArgs reqJ).sender = ZERO_ADDRESS ∧
    (joinPoolCallArgs reqJ).recipient = ZERO_ADDRESS ∧
    (exitPoolCallArgs reqE).sender = ZERO_ADDRESS ∧
    (exitPoolCallArgs reqE).recipient = ZERO_ADDRESS ∧
    (queryJoinCall reqJ)[1]? = some (WireValue.s ZERO_ADDRESS) ∧
    (queryJoinCall reqJ)[2]? = some (WireValue.s ZERO_ADDRESS) ∧
    (queryExitCall reqE)[1]? = some (WireValue.s ZERO_ADDRESS) ∧
    (queryExitCall reqE)[2]? = some (WireValue.s ZERO_ADDRESS) :=
  ⟨rfl, rfl, rfl, rfl, rfl, rfl, rfl, rfl⟩

/-- C8: checkToken fails with the error message
`label ++ " must be a pool token"` exactly when the token address is absent
from the pool token list, and succeeds silently exactly when present. -/
theorem checkToken_membership (pool : PoolConfig) (token : String) (label : String) :
    (checkToken pool token label = Except.error (label ++ " must be a pool token") ↔
      ∀ t ∈ pool.tokens, t.address ≠ token) ∧
    (checkToken pool token label = Except.ok () ↔
      ∃ t ∈ pool.tokens, t.address = token) := by
  rcases h : pool.tokens.findIdx? (fun t => t.address == token) with _ | i
  · have hck : checkToken pool token label = Except.error (label ++ " must be a pool token") := by
      unfold checkToken
      rw [h]
    rw [List.findIdx?_eq_none_iff] at h
    simp only [beq_eq_false_iff_ne, ne_eq] at h
    refine ⟨⟨fun _ => h, fun _ => hck⟩, fun hc => ?_, fun he => ?_⟩
    · rw [hck] at hc
      exact absurd hc (by simp)
    · obtain ⟨t, ht, hta⟩ := he
      exact absurd hta (h t ht)
  · have hck : checkToken pool token label = Except.ok () := by
      unfold checkToken
      rw [h]
    have hne : pool.tokens.findIdx? (fun t => t.address == token) ≠ none := by
      rw [h]
      exact Option.some_ne_none i
    rw [Ne, List.findIdx?_eq_none_iff] at hne
    push_neg at hne
    obtain ⟨t, ht, hta⟩ := hne
    simp only [ne_eq, Bool.not_eq_false, beq_iff_eq] at hta
    refine ⟨⟨fun hc => ?_, fun hall => ?_⟩, fun _ => ⟨t, ht, hta⟩, fun _ => hck⟩
    · rw [hck] at hc
      exact absurd hc (by simp)
    · exact absurd hta (hall t ht)

/-- C5: for queryJoinPool, queryExitPool and queryBatchSwap, a response
whose per-asset amounts array is missing, not an array, or of a length
different from the request asset count makes the operation fail with the
"Invalid result" integrity error, producing no result value. -/
theorem query_ops_reject_bad_amounts
    (reqJ : QueryJoinPoolRequest) (resJ : Option JoinPoolResult)
    (reqE : QueryExitPoolRequest) (resE : Option ExitPoolResult)
    (reqB : QueryBatchSwapRequest) (resB : Option (List Int)) :
    ((resJ = none ∨ (∃ r, resJ = some r ∧ r.amountsIn = none) ∨
        (∃ r l, resJ = some r ∧ r.amountsIn = some l ∧
          l.length ≠ reqJ.request.assets.length)) →
      queryJoinPool reqJ resJ = Except.error "Invalid result") ∧
    ((resE = none ∨ (∃ r, resE = some r ∧ r.amountsOut = none) ∨
        (∃ r l, resE = some r ∧ r.amountsOut = some l ∧
          l.length ≠ reqE.request.assets.length)) →
      queryExitPool reqE resE = Except.error "Invalid result") ∧
    ((resB = none ∨ (∃ l, resB = some l ∧ l.length ≠ reqB.assets.length)) →
      queryBatchSwap reqB resB = Except.error "Invalid result") := by
  refine ⟨?_, ?_, ?_⟩
  · rintro (rfl | ⟨r, rfl, hr⟩ | ⟨r, l, rfl, hl, hlen⟩)
    · rfl
    · simp [queryJoinPool, hr]
    · simp [queryJoinPool, hl, hlen]
  · rintro (rfl | ⟨r, rfl, hr⟩ | ⟨r, l, rfl, hl, hlen⟩)
    · rfl
    · simp [queryExitPool, hr]
    · simp [queryExitPool, hl, hlen]
  · rintro (rfl | ⟨l, rfl, hlen⟩)
    · rfl
    · simp [queryBatchSwap, hlen]

/-- C6: getPoolTokens fails with the terminal "Invalid result" error exactly
when the response lacks a tokens array, lacks a balances array, or the two
have unequal length; on success it returns one balance per token, with each
address put through the canonical checksum normalizer, in response order. -/
theorem getPoolTokens_validation (getAddress : String → String)
    (result : Option PoolTokensResult) :
    (getPoolTokens getAddress result = Except.error "Invalid result" ↔
      ¬ ∃ r tokens balances, result = some r ∧ r.tokens = some tokens ∧
          r.balances = some balances ∧ tokens.length = balances.length) ∧
    (∀ r tokens balances, result = some r → r.tokens = some tokens →
        r.balances = some balances → tokens.length = balances.length →
        ∃ out, getPoolTokens getAddress result = Except.ok out ∧
          out.length = tokens.length ∧
          ∀ i, i < tokens.length →
            ∃ t b, tokens[i]? = some t ∧ balances[i]? = some b ∧
              out[i]? = some { token := getAddress t, balance := b }) := by
  constructor
  · rcases result with _ | r
    · simp [getPoolTokens]
    · rcases htk : r.tokens with _ | tokens
      · simp [getPoolTokens, htk]
      · rcases hbl : r.balances with _ | balances
        · simp [getPoolTokens, htk, hbl]
        · by_cases hlen : tokens.length = balances.length
          · simp [getPoolTokens, htk, hbl, hlen]
          · simp [getPoolTokens, htk, hbl, hlen]
  · rintro r tokens balances rfl htk hbl hlen
    refine ⟨mapWithIndex
        (fun index token => { token := getAddress token, balance := balances.getD index 0 })
        0 tokens, ?_, mapWithIndex_length _ _ _, ?_⟩
    · simp [getPoolTokens, htk, hbl, hlen]
    · intro i hi
      have hib : i < balances.length := by omega
      have ht : tokens[i]? = some tokens[i] := List.getElem?_eq_getElem hi
      have hb : balances[i]? = some balances[i] := List.getElem?_eq_getElem hib
      refine ⟨tokens[i], balances[i], ht, hb, ?_⟩
      rw [mapWithIndex_getElem?, ht]
      simp [List.getD_eq_getElem?_getD, hb]

/-- C1: for every queryJoinPool call whose response passes validation, the
returned arrays satisfy usedInput[i] + unusedInput[i] = maxAmountsIn[i]
exactly, for every asset index i of the request. -/
theorem queryJoinPool_used_plus_unused (request : QueryJoinPoolRequest)
    (result : Option JoinPoolResult) (response : QueryJoinPoolResponse)
    (h : queryJoinPool request result = Except.ok response)
    (i : Nat) (hi : i < request.request.assets.length)
    (him : i < request.request.maxAmountsIn.length) :
    ∃ used maxAmount unused,
      response.usedInput[i]? = some used ∧
      request.request.maxAmountsIn[i]? = some maxAmount ∧
      response.unusedInput[i]? = some (some unused) ∧
      used + unused = maxAmount := by
  rcases result with _ | r
  · exact absurd h (by simp [queryJoinPool])
  · rcases ha : r.amountsIn with _ | amountsIn
    · exact absurd h (by simp [queryJoinPool, ha])
    · by_cases hlen : amountsIn.length = request.request.assets.length
      · have hresp : response =
            { liquidity := r.bptOut
              usedInput := amountsIn
              unusedInput := mapWithIndex
                (fun index amount => (amountsIn[index]?).map fun used => amount - used)
                0 request.request.maxAmountsIn } := by
          have h' := h
          simp only [queryJoinPool, ha, hlen, ne_eq, not_true_eq_false, if_false,
            Except.ok.injEq] at h'
          exact h'.symm
        have hiu : i < amountsIn.length := by omega
        have hu : amountsIn[i]? = some amountsIn[i] := List.getElem?_eq_getElem hiu
        have hm : request.request.maxAmountsIn[i]? =
            some request.request.maxAmountsIn[i] := List.getElem?_eq_getElem him
        refine ⟨amountsIn[i], request.request.maxAmountsIn[i],
          request.request.maxAmountsIn[i] - amountsIn[i], ?_, hm, ?_, by omega⟩
        · rw [hresp]
          exact hu
        · rw [hresp]
          show (mapWithIndex
            (fun index amount => (amountsIn[index]?).map fun used => amount - used)
            0 request.request.maxAmountsIn)[i]? = _
          rw [mapWithIndex_getElem?, hm]
          simp [hu]
      · exact absurd h (by simp [queryJoinPool, ha, hlen])

/-- C2: for getJoinPoolZap with N assets and balance insertion enabled, the
returned tokens list pairs asset address i with the byte offset
32 * (9 + N + 1 + i) past the 4-byte selector region (absolute offset
4 + 32 * (9 + N + 1 + i)), in request asset order. -/
theorem getJoinPoolZap_insertion_offsets (config : VaultConfig)
    (request : JoinPoolZapRequest) (h : request.insertBalance = true)
    (i : Nat) (hi : i < request.join.request.assets.length) :
    (getJoinPoolZap config request).tokens.length =
      request.join.request.assets.length ∧
    ∃ address, request.join.request.assets[i]? = some address ∧
      (getJoinPoolZap config request).tokens[i]? =
        some { token := address
               index := 4 + 32 * (9 + request.join.request.assets.length + 1 + i) } := by
  have ha : request.join.request.assets[i]? =
      some request.join.request.assets[i] := List.getElem?_eq_getElem hi
  constructor
  · simp [getJoinPoolZap, h, mapWithIndex_length]
  · refine ⟨request.join.request.assets[i], ha, ?_⟩
    show (if request.insertBalance then _ else _ : List StepToken)[i]? = _
    rw [h]
    simp only [if_true]
    rw [mapWithIndex_getElem?, ha]
    simp only [Option.map_some', Option.some.injEq, getInsertIndex]
    congr 1
    omega

/-- C3: for getExitPoolZap with balance insertion enabled, discriminants 0
and 1 in the leading userData word insert at one word past the userData
content start, discriminant 2 inserts at two words past it, and any other
discriminant fails with the unsupported-exit-kind error. -/
theorem getExitPoolZapTokens_by_exit_kind (request : ExitPoolZapRequest)
    (h : request.insertBalance = true) :
    (request.exit.request.userData.head = 0 →
      getExitPoolZapTokens request = Except.ok
        [{ token := request.poolAddress
           index := 4 + 32 * (9 + request.exit.request.assets.length + 1 +
             request.exit.request.minAmountsOut.length + 1 + 1) }]) ∧
    (request.exit.request.userData.head = 1 →
      getExitPoolZapTokens request = Except.ok
        [{ token := request.poolAddress
           index := 4 + 32 * (9 + request.exit.request.assets.length + 1 +
             request.exit.request.minAmountsOut.length + 1 + 1) }]) ∧
    (request.exit.request.userData.head = 2 →
      getExitPoolZapTokens request = Except.ok
        [{ token := request.poolAddress
           index := 4 + 32 * (9 + request.exit.request.assets.length + 1 +
             request.exit.request.minAmountsOut.length + 1 + 2) }]) ∧
    (request.exit.request.userData.head ≠ 0 →
      request.exit.request.userData.head ≠ 1 →
      request.exit.request.userData.head ≠ 2 →
      getExitPoolZapTokens request = Except.error
        ("Unsupported exit kind: " ++ toString request.exit.request.userData.head)) := by
  refine ⟨fun h0 => ?_, fun h1 => ?_, fun h2 => ?_, fun h0 h1 h2 => ?_⟩
  · simp only [getExitPoolZapTokens, h, if_true, h0,
      WeightedPoolExitKind.EXACT_BPT_IN_FOR_TOKENS_OUT, if_pos rfl, getInsertIndex,
      Except.ok.injEq, List.cons.injEq, and_true, StepToken.mk.injEq, true_and]
    omega
  · simp only [getExitPoolZapTokens, h, if_true, h1,
      WeightedPoolExitKind.EXACT_BPT_IN_FOR_TOKENS_OUT,
      WeightedPoolExitKind.EXACT_BPT_IN_FOR_ONE_TOKEN_OUT, getInsertIndex]
    norm_num
    omega
  · simp only [getExitPoolZapTokens, h, if_true, h2,
      WeightedPoolExitKind.EXACT_BPT_IN_FOR_TOKENS_OUT,
      WeightedPoolExitKind.EXACT_BPT_IN_FOR_ONE_TOKEN_OUT,
      WeightedPoolExitKind.BPT_IN_FOR_EXACT_TOKENS_OUT, getInsertIndex]
    norm_num
    omega
  · simp only [getExitPoolZapTokens, h, if_true,
      WeightedPoolExitKind.EXACT_BPT_IN_FOR_TOKENS_OUT,
      WeightedPoolExitKind.EXACT_BPT_IN_FOR_ONE_TOKEN_OUT,
      WeightedPoolExitKind.BPT_IN_FOR_EXACT_TOKENS_OUT, h0, h1, h2, if_false]

/-- C9: when insertBalance is false every zap builder returns an empty
tokens list, and getExitPoolZap then succeeds with the encoded call data
without ever looking at the userData exit-kind discriminant. -/
theorem zap_builders_no_insert (config : VaultConfig) (reqJ : JoinPoolZapRequest)
    (reqE : ExitPoolZapRequest) (reqS : SwapZapRequest) :
    (reqJ.insertBalance = false → (getJoinPoolZap config reqJ).tokens = []) ∧
    (reqS.insertBalance = false → (getSwapZap config reqS).tokens = []) ∧
    (reqE.insertBalance = false →
      getExitPoolZap config reqE = Except.ok
        { target := config.vaultAddress
          value := "0"
          data := encodeExitPool reqE.exit
          tokens := [] }) := by
  refine ⟨fun hJ => ?_, fun hS => ?_, fun hE => ?_⟩
  · simp [getJoinPoolZap, hJ]
  · simp [getSwapZap, hS]
  · simp [getExitPoolZap, getExitPoolZapTokens, hE, Except.map]

set_option maxRecDepth 8000 in
/-- C4 counterexample: the claim says the single-swap slippage limit is
converted to a signed fixed-width integer string, but encodeSwap renders
the limit with the unsigned converter; at limit -1 the two conversions
disagree, so the encoded tuple does not hold the signed rendering. -/
theorem encodeSwap_limit_not_signed :
    (encodeSwap
      { singleSwap :=
          { poolId := "0x01"
            kind := 0
            assetIn := "0xA"
            assetOut := "0xB"
            amount := 10
            userData := "0x" }
        funds :=
          { sender := "0xS"
            fromInternalBalance := false
            recipient := "0xR"
            toInternalBalance := false }
        limit := -1
        deadline := "100" })[2]? ≠
      some (WireValue.s (bigNumberToInt256String (-1))) := by
  intro hcontra
  simp only [encodeSwap, List.getElem?_cons_succ, List.getElem?_cons_zero,
    Option.some.injEq, WireValue.s.injEq] at hcontra
  have hne : bigNumberToUint256String (-1) ≠ bigNumberToInt256String (-1) := by
    unfold bigNumberToUint256String bigNumberToInt256String
    norm_num
    decide
  exact hne hcontra

/-- C4 amended: in encodeSwap and encodeBatchSwap every input amount is
converted with the unsigned fixed-width converter; each element of the
batch-swap limits array is converted with the signed fixed-width converter,
while the single-swap limit is converted with the unsigned one. -/
theorem encode_swap_amount_and_limit_conversions (a : SwapArgs)
    (ba : BatchSwapArgs) (j : Nat) (hj : j < ba.swaps.length) :
    (∃ sw, (encodeSwap a)[0]? = some (WireValue.arr sw) ∧
      sw[4]? = some (WireValue.s (bigNumberToUint256String a.singleSwap.amount))) ∧
    (encodeSwap a)[2]? = some (WireValue.s (bigNumberToUint256String a.limit)) ∧
    (∃ hops s, (encodeBatchSwap ba)[1]? = some (WireValue.arr hops) ∧
      ba.swaps[j]? = some s ∧
      ∃ entry, hops[j]? = some (WireValue.arr entry) ∧
        entry[3]? = some (WireValue.s (bigNumberToUint256String s.amount))) ∧
    (encodeBatchSwap ba)[4]? = some (WireValue.arr
      (ba.limits.map fun x => WireValue.s (bigNumberToInt256String x))) := by
  have hs : ba.swaps[j]? = some ba.swaps[j] := List.getElem?_eq_getElem hj
  refine ⟨⟨_, rfl, rfl⟩, rfl, ?_, rfl⟩
  refine ⟨_, ba.swaps[j], rfl, hs, ?_⟩
  refine ⟨[WireValue.s ba.swaps[j].poolId, WireValue.n ba.swaps[j].assetInIndex,
    WireValue.n ba.swaps[j].assetOutIndex,
    WireValue.s (bigNumberToUint256String ba.swaps[j].amount),
    WireValue.s ba.swaps[j].userData], ?_, rfl⟩
  rw [List.getElem?_map, hs]
  rfl

theorem queryJoinPool_used_plus_unused_witness :
    ∃ used maxAmount unused,
      (({ liquidity := 7
          usedInput := [2]
          unusedInput := [some 3] } : QueryJoinPoolResponse)).usedInput[0]? = some used ∧
      ([5] : List Int)[0]? = some maxAmount ∧
      (({ liquidity := 7
          usedInput := [2]
          unusedInput := [some 3] } :
          QueryJoinPoolResponse)).unusedInput[0]? = some (some unused) ∧
      used + unused = maxAmount := by
  exact queryJoinPool_used_plus_unused
    { poolId := "0xP"
      sender := "0xS"
      recipient := "0xR"
      request :=
        { assets := ["0xA"]
          maxAmountsIn := [5]
          userData := "0x"
          fromInternalBalance := false } }
    (some { bptOut := 7, amountsIn := some [2] })
    { liquidity := 7
      usedInput := [2]
      unusedInput := [some 3] }
    rfl 0 (by decide) (by decide)

theorem getJoinPoolZap_insertion_offsets_witness :
    (getJoinPoolZap
        { vaultAddress := "0xV", queryAddress := "0xQ" }
        { join :=
            { poolId := "0xP"
              sender := "0xS"
              recipient := "0xR"
              request :=
                { assets := ["0xA", "0xB"]
                  maxAmountsIn := [1, 2]
                  userData := "0x"
                  fromInternalBalance := true } }
          insertBalance := true }).tokens.length = 2 ∧
    ∃ address, (["0xA", "0xB"] : List String)[1]? = some address ∧
      (getJoinPoolZap
          { vaultAddress := "0xV", queryAddress := "0xQ" }
          { join :=
              { poolId := "0xP"
                sender := "0xS"
                recipient := "0xR"
                request :=
                  { assets := ["0xA", "0xB"]
                    maxAmountsIn := [1, 2]
                    userData := "0x"
                    fromInternalBalance := true } }
            insertBalance := true }).tokens[1]? =
        some { token := address, index := 4 + 32 * (9 + 2 + 1 + 1) } := by
  exact getJoinPoolZap_insertion_offsets
    { vaultAddress := "0xV", queryAddress := "0xQ" }
    { join :=
        { poolId := "0xP"
          sender := "0xS"
          recipient := "0xR"
          request :=
            { assets := ["0xA", "0xB"]
              maxAmountsIn := [1, 2]
              userData := "0x"
              fromInternalBalance := true } }
      insertBalance := true }
    rfl 1 (by decide)

theorem getExitPoolZapTokens_by_exit_kind_witness :
    getExitPoolZapTokens
      { exit :=
          { poolId := "0xP"
            sender := "0xS"
            recipient := "0xR"
            request :=
              { assets := ["0xA"]
                minAmountsOut := [0]
                userData := { head := 0, rest := [10] }
                toInternalBalance := false } }
        poolAddress := "0xBPT"
        insertBalance := true } =
      Except.ok [{ token := "0xBPT", index := 4 + 32 * (9 + 1 + 1 + 1 + 1 + 1) }] ∧
    getExitPoolZapTokens
      { exit :=
          { poolId := "0xP"
            sender := "0xS"
            recipient := "0xR"
            request :=
              { assets := ["0xA"]
                minAmountsOut := [0]
                userData := { head := 99, rest := [10] }
                toInternalBalance := false } }
        poolAddress := "0xBPT"
        insertBalance := true } =
      Except.error ("Unsupported exit kind: " ++ toString (99 : Nat)) := by
  constructor
  · exact (getExitPoolZapTokens_by_exit_kind
      { exit :=
          { poolId := "0xP"
            sender := "0xS"
            recipient := "0xR"
            request :=
              { assets := ["0xA"]
                minAmountsOut := [0]
                userData := { head := 0, rest := [10] }
                toInternalBalance := false } }
        poolAddress := "0xBPT"
        insertBalance := true } rfl).1 rfl
  · exact (getExitPoolZapTokens_by_exit_kind
      { exit :=
          { poolId := "0xP"
            sender := "0xS"
            recipient := "0xR"
            request :=
              { assets := ["0xA"]
                minAmountsOut := [0]
                userData := { head := 99, rest := [10] }
                toInternalBalance := false } }
        poolAddress := "0xBPT"
        insertBalance := true } rfl).2.2.2
      (by decide) (by decide) (by decide)

theorem encode_swap_amount_and_limit_conversions_witness :
    (∃ sw, (encodeSwap
        { singleSwap :=
            { poolId := "0x01"
              kind := 0
              assetIn := "0xA"
              assetOut := "0xB"
              amount := 10
              userData := "0x" }
          funds :=
            { sender := "0xS"
              fromInternalBalance := false
              recipient := "0xR"
              toInternalBalance := false }
          limit := -5
          deadline := "100" })[0]? = some (WireValue.arr sw) ∧
      sw[4]? = some (WireValue.s (bigNumberToUint256String 10))) ∧
    (encodeSwap
        { singleSwap :=
            { poolId := "0x01"
              kind := 0
              assetIn := "0xA"
              assetOut := "0xB"
              amount := 10
              userData := "0x" }
          funds :=
            { sender := "0xS"
              fromInternalBalance := false
              recipient := "0xR"
              toInternalBalance := false }
          limit := -5
          deadline := "100" })[2]? =
      some (WireValue.s (bigNumberToUint256String (-5))) ∧
    (∃ hops s, (encodeBatchSwap
        { kind := 0
          swaps :=
            [{ poolId := "0x02"
               assetInIndex := 0
               assetOutIndex := 1
               amount := 4
               userData := "0x" }]
          assets := ["0xA", "0xB"]
          funds :=
            { sender := "0xS"
              fromInternalBalance := false
              recipient := "0xR"
              toInternalBalance := false }
          limits := [-7, 8]
          deadline := "100" })[1]? = some (WireValue.arr hops) ∧
      ([{ poolId := "0x02"
          assetInIndex := 0
          assetOutIndex := 1
          amount := 4
          userData := "0x" }] : List BatchSwapStep)[0]? = some s ∧
      ∃ entry, hops[0]? = some (WireValue.arr entry) ∧
        entry[3]? = some (WireValue.s (bigNumberToUint256String s.amount))) ∧
    (encodeBatchSwap
        { kind := 0
          swaps :=
            [{ poolId := "0x02"
               assetInIndex := 0
               assetOutIndex := 1
               amount := 4
               userData := "0x" }]
          assets := ["0xA", "0xB"]
          funds :=
            { sender := "0xS"
              fromInternalBalance := false
              recipient := "0xR"
              toInternalBalance := false }
          limits := [-7, 8]
          deadline := "100" })[4]? =
      some (WireValue.arr (([-7, 8] : List Int).map
        fun x => WireValue.s (bigNumberToInt256String x))) := by
  exact encode_swap_amount_and_limit_conversions
    { singleSwap :=
        { poolId := "0x01"
          kind := 0
          assetIn := "0xA"
          assetOut := "0xB"
          amount := 10
          userData := "0x" }
      funds :=
        { sender := "0xS"
          fromInternalBalance := false
          recipient := "0xR"
          toInternalBalance := false }
      limit := -5
      deadline := "100" }
    { kind := 0
      swaps :=
        [{ poolId := "0x02"
           assetInIndex := 0
           assetOutIndex := 1
           amount := 4
           userData := "0x" }]
      assets := ["0xA", "0xB"]
      funds :=
        { sender := "0xS"
          fromInternalBalance := false
          recipient := "0xR"
          toInternalBalance := false }
      limits := [-7, 8]
      deadline := "100" }
    0 (by decide)

theorem query_ops_reject_bad_amounts_witness :
    queryJoinPool
      { poolId := "0xP"
        sender := "0xS"
        recipient := "0xR"
        request :=
          { assets := ["0xA"]
            maxAmountsIn := [5]
            userData := "0x"
            fromInternalBalance := false } }
      (some { bptOut := 1, amountsIn := some [1, 2] }) =
      Except.error "Invalid result" ∧
    queryExitPool
      { poolId := "0xP"
        sender := "0xS"
        recipient := "0xR"
        request :=
          { assets := ["0xA"]
            minAmountsOut := [0]
            userData := { head := 0, rest := [] }
            toInternalBalance := false } }
      (some { bptIn := 1, amountsOut := none }) =
      Except.error "Invalid result" ∧
    queryBatchSwap
      { kind := 0
        swaps := []
        assets := ["0xA", "0xB"] } none =
      Except.error "Invalid result" := by
  obtain ⟨hJ, hE, hB⟩ := query_ops_reject_bad_amounts
    { poolId := "0xP"
      sender := "0xS"
      recipient := "0xR"
      request :=
        { assets := ["0xA"]
          maxAmountsIn := [5]
          userData := "0x"
          fromInternalBalance := false } }
    (some { bptOut := 1, amountsIn := some [1, 2] })
    { poolId := "0xP"
      sender := "0xS"
      recipient := "0xR"
      request :=
        { assets := ["0xA"]
          minAmountsOut := [0]
          userData := { head := 0, rest := [] }
          toInternalBalance := false } }
    (some { bptIn := 1, amountsOut := none })
    { kind := 0
      swaps := []
      assets := ["0xA", "0xB"] } none
  refine ⟨hJ ?_, hE ?_, hB ?_⟩
  · exact Or.inr (Or.inr ⟨_, _, rfl, rfl, by decide⟩)
  · exact Or.inr (Or.inl ⟨_, rfl, rfl⟩)
  · exact Or.inl rfl

theorem getPoolTokens_validation_witness :
    ∃ out, getPoolTokens (fun a => a)
        (some { tokens := some ["0xa", "0xb"], balances := some [3, 4] }) =
      Except.ok out ∧ out.length = 2 ∧
      ∀ i, i < 2 →
        ∃ t b, (["0xa", "0xb"] : List String)[i]? = some t ∧
          ([3, 4] : List Int)[i]? = some b ∧
          out[i]? = some { token := t, balance := b } := by
  exact (getPoolTokens_validation (fun a => a)
      (some { tokens := some ["0xa", "0xb"], balances := some [3, 4] })).2
    { tokens := some ["0xa", "0xb"], balances := some [3, 4] }
    ["0xa", "0xb"] [3, 4] rfl rfl rfl rfl

theorem query_calls_force_zero_sender_recipient_witness :
    (joinPoolCallArgs
      { poolId := "0xP"
        sender := "0xDead"
        recipient := "0xCafe"
        request :=
          { assets := ["0xA"]
            maxAmountsIn := [5]
            userData := "0x"
            fromInternalBalance := false } }).sender = ZERO_ADDRESS ∧
    (joinPoolCallArgs
      { poolId := "0xP"
        sender := "0xDead"
        recipient := "0xCafe"
        request :=
          { assets := ["0xA"]
            maxAmountsIn := [5]
            userData := "0x"
            fromInternalBalance := false } }).recipient = ZERO_ADDRESS ∧
    (exitPoolCallArgs
      { poolId := "0xP"
        sender := "0xDead"
        recipient := "0xCafe"
        request :=
          { assets := ["0xA"]
            minAmountsOut := [0]
            userData := { head := 0, rest := [] }
            toInternalBalance := false } }).sender = ZERO_ADDRESS ∧
    (exitPoolCallArgs
      { poolId := "0xP"
        sender := "0xDead"
        recipient := "0xCafe"
        request :=
          { assets := ["0xA"]
            minAmountsOut := [0]
            userData := { head := 0, rest := [] }
            toInternalBalance := false } }).recipient = ZERO_ADDRESS ∧
    (queryJoinCall
      { poolId := "0xP"
        sender := "0xDead"
        recipient := "0xCafe"
        request :=
          { assets := ["0xA"]
            maxAmountsIn := [5]
            userData := "0x"
            fromInternalBalance := false } })[1]? = some (WireValue.s ZERO_ADDRESS) ∧
    (queryJoinCall
      { poolId := "0xP"
        sender := "0xDead"
        recipient := "0xCafe"
        request :=
          { assets := ["0xA"]
            maxAmountsIn := [5]
            userData := "0x"
            fromInternalBalance := false } })[2]? = some (WireValue.s ZERO_ADDRESS) ∧
    (queryExitCall
      { poolId := "0xP"
        sender := "0xDead"
        recipient := "0xCafe"
        request :=
          { assets := ["0xA"]
            minAmountsOut := [0]
            userData := { head := 0, rest := [] }
            toInternalBalance := false } })[1]? = some (WireValue.s ZERO_ADDRESS) ∧
    (queryExitCall
      { poolId := "0xP"
        sender := "0xDead"
        recipient := "0xCafe"
        request :=
          { assets := ["0xA"]
            minAmountsOut := [0]
            userData := { head := 0, rest := [] }
            toInternalBalance := false } })[2]? = some (WireValue.s ZERO_ADDRESS) := by
  exact query_calls_force_zero_sender_recipient
    { poolId := "0xP"
      sender := "0xDead"
      recipient := "0xCafe"
      request :=
        { assets := ["0xA"]
          maxAmountsIn := [5]
          userData := "0x"
          fromInternalBalance := false } }
    { poolId := "0xP"
      sender := "0xDead"
      recipient := "0xCafe"
      request :=
        { assets := ["0xA"]
          minAmountsOut := [0]
          userData := { head := 0, rest := [] }
          toInternalBalance := false } }

theorem checkToken_membership_witness :
    (checkToken { poolId := "0xP", tokens := [{ address := "0xA" }] } "0xB" "asset" =
        Except.error ("asset" ++ " must be a pool token") ↔
      ∀ t ∈ ([{ address := "0xA" }] : List PoolConfigToken), t.address ≠ "0xB") ∧
    (checkToken { poolId := "0xP", tokens := [{ address := "0xA" }] } "0xB" "asset" =
        Except.ok () ↔
      ∃ t ∈ ([{ address := "0xA" }] : List PoolConfigToken), t.address = "0xB") := by
  exact checkToken_membership
    { poolId := "0xP", tokens := [{ address := "0xA" }] } "0xB" "asset"

theorem zap_builders_no_insert_witness :
    (getJoinPoolZap
      { vaultAddress := "0xV", queryAddress := "0xQ" }
      { join :=
          { poolId := "0xP"
            sender := "0xS"
            recipient := "0xR"
            request :=
              { assets := ["0xA"]
                maxAmountsIn := [5]
                userData := "0x"
                fromInternalBalance := false } }
        insertBalance := false }).tokens = [] ∧
    (getSwapZap
      { vaultAddress := "0xV", queryAddress := "0xQ" }
      { swap :=
          { singleSwap :=
              { poolId := "0x01"
                kind := 0
                assetIn := "0xA"
                assetOut := "0xB"
                amount := 10
                userData := "0x" }
            funds :=
              { sender := "0xS"
                fromInternalBalance := false
                recipient := "0xR"
                toInternalBalance := false }
            limit := 1
            deadline := "100" }
        insertBalance := false }).tokens = [] ∧
    getExitPoolZap
      { vaultAddress := "0xV", queryAddress := "0xQ" }
      { exit :=
          { poolId := "0xP"
            sender := "0xS"
            recipient := "0xR"
            request :=
              { assets := ["0xA"]
                minAmountsOut := [0]
                userData := { head := 99, rest := [] }
                toInternalBalance := false } }
        poolAddress := "0xBPT"
        insertBalance := false } =
      Except.ok
        { target := "0xV"
          value := "0"
          data := encodeExitPool
            { poolId := "0xP"
              sender := "0xS"
              recipient := "0xR"
              request :=
                { assets := ["0xA"]
                  minAmountsOut := [0]
                  userData := { head := 99, rest := [] }
                  toInternalBalance := false } }
          tokens := [] } := by
  obtain ⟨h1, h2, h3⟩ := zap_builders_no_insert
    { vaultAddress := "0xV", queryAddress := "0xQ" }
    { join :=
        { poolId := "0xP"
          sender := "0xS"
          recipient := "0xR"
          request :=
            { assets := ["0xA"]
              maxAmountsIn := [5]
              userData := "0x"
              fromInternalBalance := false } }
      insertBalance := false }
    { exit :=
        { poolId := "0xP"
          sender := "0xS"
          recipient := "0xR"
          request :=
            { assets := ["0xA"]
              minAmountsOut := [0]
              userData := { head := 99, rest := [] }
              toInternalBalance := false } }
      poolAddress := "0xBPT"
      insertBalance := false }
    { swap :=
        { singleSwap :=
            { poolId := "0x01"
              kind := 0
              assetIn := "0xA"
              assetOut := "0xB"
              amount := 10
              userData := "0x" }
          funds :=
            { sender := "0xS"
              fromInternalBalance := false
              recipient := "0xR"
              toInternalBalance := false }
          limit := 1
          deadline := "100" }
      insertBalance := false }
  exact ⟨h1 rfl, h2 rfl, h3 rfl⟩
